import Mathlib

/-!
Verification of the braidMgr status-indicator engine
(`src/backend/src/services/indicator_service.py`) against its
natural-language specification.

The embedding is shallow: Python `date` values become integers (day
numbers, so that `(d2 - d1).days = d2 - d1`), Python `datetime` values
become a structure carrying their date component, Python `int` becomes
`Int`, and the single floating-point division in the trending-late
sub-rule is modelled with exact rational arithmetic (`ℚ`).
-/

/-- The `Indicator` enum from `src/backend/src/domain/core.py`
(constructor names follow the source; the string payloads of the Python
`str`-enum are irrelevant to the indicator logic). -/
inductive Indicator where
  | BEYOND_DEADLINE
  | LATE_FINISH
  | LATE_START
  | TRENDING_LATE
  | FINISHING_SOON
  | STARTING_SOON
  | IN_PROGRESS
  | NOT_STARTED
  | COMPLETED_RECENTLY
  | COMPLETED
deriving DecidableEq, Repr

/-- A Python `datetime`, reduced to the fields the indicator service
reads: `.date()` (as a day number) plus an opaque time-of-day component
that the service never inspects. -/
structure PyDateTime where
  date : Int
  secondsOfDay : Nat := 0
deriving DecidableEq, Repr

/-- The fields of the `Item` dataclass (`src/backend/src/domain/core.py`)
that the indicator service reads: `start_date`, `finish_date`,
`deadline`, `draft`, `percent_complete`, `updated_at`, and the stored
`indicator`. The remaining dataclass fields (id, title, budget, ...) are
never read by `calculate_indicator`, `calculate_indicators_batch` or
`get_indicator_severity` and are omitted from the embedding. Defaults
mirror the dataclass defaults. -/
structure Item where
  start_date : Option Int := none
  finish_date : Option Int := none
  deadline : Option Int := none
  draft : Bool := false
  percent_complete : Int := 0
  indicator : Option Indicator := none
  updated_at : Option PyDateTime := none
deriving DecidableEq, Repr

/-- `Item.has_dates` property from `src/backend/src/domain/core.py`:
both start and finish dates are defined. -/
def Item.has_dates (item : Item) : Bool :=
  item.start_date.isSome && item.finish_date.isSome

/-- `SOON_THRESHOLD_DAYS` constant from `indicator_service.py`. -/
def SOON_THRESHOLD_DAYS : Int := 14

/-- `COMPLETED_RECENTLY_DAYS` constant from `indicator_service.py`. -/
def COMPLETED_RECENTLY_DAYS : Int := 14

/-- `_is_trending_late` from `indicator_service.py`. Python's float
division `elapsed_days / total_days` is modelled as exact division in
`ℚ`; it is only reached after the `total_days <= 0` guard. -/
def _is_trending_late (item : Item) (today : Int) : Bool :=
  match item.start_date, item.finish_date with
  | some start_date, some finish_date =>
    if start_date > today then false
    else if item.percent_complete ≥ 100 then false
    else
      let total_days := finish_date - start_date
      if total_days ≤ 0 then false
      else
        let elapsed_days := today - start_date
        let elapsed_days := if elapsed_days < 0 then 0 else elapsed_days
        let expected_progress : ℚ := ((elapsed_days : ℚ) / (total_days : ℚ)) * 100
        decide ((item.percent_complete : ℚ) < expected_progress - 5)
  | _, _ => false

/-- `calculate_indicator` from `indicator_service.py`: the ten-rule
precedence chain of early returns, translated if-branch by if-branch.
The `today = None` default (filled with the wall clock at the call
site) is outside the embedding: the reference date is always explicit. -/
def calculate_indicator (item : Item) (today : Int) : Option Indicator :=
  -- RULE 1: Draft items have no indicator
  if item.draft then none
  -- RULE 2: Completed items
  else if decide (item.percent_complete ≥ 100) then
    match item.updated_at with
    | some updated_at =>
      let completion_date := updated_at.date
      let days_since_completion := today - completion_date
      if decide (days_since_completion ≤ COMPLETED_RECENTLY_DAYS) then
        some Indicator.COMPLETED_RECENTLY
      else some Indicator.COMPLETED
    | none => some Indicator.COMPLETED
  -- RULE 3: Beyond deadline
  else if item.deadline.any fun d => decide (d < today) then
    some Indicator.BEYOND_DEADLINE
  -- RULE 4: Late finish
  else if item.finish_date.any fun f => decide (f < today) then
    some Indicator.LATE_FINISH
  -- RULE 5: Late start
  else if (item.start_date.any fun s => decide (s < today)) &&
      decide (item.percent_complete = 0) then
    some Indicator.LATE_START
  -- RULE 6: Trending late
  else if _is_trending_late item today then
    some Indicator.TRENDING_LATE
  -- RULE 7: Finishing soon
  else if item.finish_date.any fun f =>
      decide (0 ≤ f - today) && decide (f - today ≤ SOON_THRESHOLD_DAYS) then
    some Indicator.FINISHING_SOON
  -- RULE 8: Starting soon
  else if (item.start_date.any fun s =>
      decide (0 ≤ s - today) && decide (s - today ≤ SOON_THRESHOLD_DAYS)) &&
      decide (item.percent_complete = 0) then
    some Indicator.STARTING_SOON
  -- RULE 9: In progress
  else if decide (0 < item.percent_complete) &&
      decide (item.percent_complete < 100) then
    some Indicator.IN_PROGRESS
  -- RULE 10: Not started
  else if item.has_dates && decide (item.percent_complete = 0) then
    some Indicator.NOT_STARTED
  else none

/-- `calculate_indicators_batch` from `indicator_service.py`: the list
comprehension `[(item, calculate_indicator(item, today)) for item in
items]`. -/
def calculate_indicators_batch (items : List Item) (today : Int) :
    List (Item × Option Indicator) :=
  items.map fun item => (item, calculate_indicator item today)

/-- `get_indicator_severity` from `indicator_service.py`: the
`severity_map` dictionary, which covers `None` and all ten enum members,
so the dictionary's `.get(indicator, 0)` default is never taken. -/
def get_indicator_severity (indicator : Option Indicator) : Int :=
  match indicator with
  | none => 0
  | some Indicator.COMPLETED => 1
  | some Indicator.COMPLETED_RECENTLY => 2
  | some Indicator.NOT_STARTED => 3
  | some Indicator.STARTING_SOON => 4
  | some Indicator.IN_PROGRESS => 5
  | some Indicator.FINISHING_SOON => 6
  | some Indicator.TRENDING_LATE => 7
  | some Indicator.LATE_START => 8
  | some Indicator.LATE_FINISH => 9
  | some Indicator.BEYOND_DEADLINE => 10

/-! ### Guarded-division variant

To state totality (claim C4) meaningfully in a total language, the one
operation of the source that can raise in Python — the division
`elapsed_days / total_days`, which raises `ZeroDivisionError` when
`total_days = 0` — is re-embedded as a fallible operation returning
`Option`, and the whole engine is shown to never propagate a failure. -/

/-- Division as Python performs it: `none` models `ZeroDivisionError`. -/
def rat_div_checked (a b : ℚ) : Option ℚ :=
  if b = 0 then none else some (a / b)

/-- `_is_trending_late` with the division modelled as fallible;
`none` means the Python function would have raised. -/
def _is_trending_late_checked (item : Item) (today : Int) : Option Bool :=
  match item.start_date, item.finish_date with
  | some start_date, some finish_date =>
    if start_date > today then some false
    else if item.percent_complete ≥ 100 then some false
    else
      let total_days := finish_date - start_date
      if total_days ≤ 0 then some false
      else
        let elapsed_days := today - start_date
        let elapsed_days := if elapsed_days < 0 then 0 else elapsed_days
        match rat_div_checked (elapsed_days : ℚ) (total_days : ℚ) with
        | none => none
        | some q =>
          some (decide ((item.percent_complete : ℚ) < q * 100 - 5))
  | _, _ => some false

/-- `calculate_indicator` with the fallible trending-late sub-rule;
`none` (outer) means the Python function would have raised. -/
def calculate_indicator_checked (item : Item) (today : Int) :
    Option (Option Indicator) :=
  if item.draft then some none
  else if decide (item.percent_complete ≥ 100) then
    match item.updated_at with
    | some updated_at =>
      if decide (today - updated_at.date ≤ COMPLETED_RECENTLY_DAYS) then
        some (some Indicator.COMPLETED_RECENTLY)
      else some (some Indicator.COMPLETED)
    | none => some (some Indicator.COMPLETED)
  else if item.deadline.any fun d => decide (d < today) then
    some (some Indicator.BEYOND_DEADLINE)
  else if item.finish_date.any fun f => decide (f < today) then
    some (some Indicator.LATE_FINISH)
  else if (item.start_date.any fun s => decide (s < today)) &&
      decide (item.percent_complete = 0) then
    some (some Indicator.LATE_START)
  else
    match _is_trending_late_checked item today with
    | none => none
    | some true => some (some Indicator.TRENDING_LATE)
    | some false =>
      if item.finish_date.any fun f =>
          decide (0 ≤ f - today) && decide (f - today ≤ SOON_THRESHOLD_DAYS) then
        some (some Indicator.FINISHING_SOON)
      else if (item.start_date.any fun s =>
          decide (0 ≤ s - today) && decide (s - today ≤ SOON_THRESHOLD_DAYS)) &&
          decide (item.percent_complete = 0) then
        some (some Indicator.STARTING_SOON)
      else if decide (0 < item.percent_complete) &&
          decide (item.percent_complete < 100) then
        some (some Indicator.IN_PROGRESS)
      else if item.has_dates && decide (item.percent_complete = 0) then
        some (some Indicator.NOT_STARTED)
      else some none

/-! ### Specification-side rule list

For the refinement claim C1 the spec's "ordered rule precedence, first
matching rule wins" wording is written down literally: an ordered list
of (condition, result) pairs, scanned front to back. These definitions
follow the wording of spec §4.1, not the source. -/

/-- The spec's TrendingLate sub-rule, following the wording of §4.1:
both dates present, `startDate <= referenceDate`, `percentComplete <
100`, `totalDays > 0`, and `percentComplete < (elapsedDays / totalDays)
* 100 - 5` with `elapsedDays = max(0, referenceDate - startDate)`. -/
def spec_trending_late (item : Item) (today : Int) : Bool :=
  match item.start_date, item.finish_date with
  | some startDate, some finishDate =>
    decide (startDate ≤ today) && decide (item.percent_complete < 100) &&
      (let totalDays := finishDate - startDate
       decide (0 < totalDays) &&
         (let elapsedDays := max 0 (today - startDate)
          decide ((item.percent_complete : ℚ) <
            (elapsedDays : ℚ) / (totalDays : ℚ) * 100 - 5)))
  | _, _ => false

/-- The spec's Completed rule result (rule 2 of §4.1): CompletedRecently
when `lastModifiedAt` is present and at most 14 days before the
reference date, otherwise Completed. -/
def spec_completed_result (item : Item) (today : Int) : Option Indicator :=
  match item.updated_at with
  | some lastModifiedAt =>
    if decide (today - lastModifiedAt.date ≤ 14) then
      some Indicator.COMPLETED_RECENTLY
    else some Indicator.COMPLETED
  | none => some Indicator.COMPLETED

/-- The ordered rule list of spec §4.1, rules 1-10, as (condition,
result) pairs in the fixed order Draft, Completed, BeyondDeadline,
LateFinish, LateStart, TrendingLate, FinishingSoon, StartingSoon,
InProgress, NotStarted. -/
def spec_rule_list (item : Item) (today : Int) :
    List (Bool × Option Indicator) :=
  [ (item.draft, none),
    (decide (item.percent_complete ≥ 100), spec_completed_result item today),
    (item.deadline.any fun d => decide (d < today),
      some Indicator.BEYOND_DEADLINE),
    (item.finish_date.any fun f => decide (f < today),
      some Indicator.LATE_FINISH),
    ((item.start_date.any fun s => decide (s < today)) &&
        decide (item.percent_complete = 0),
      some Indicator.LATE_START),
    (spec_trending_late item today, some Indicator.TRENDING_LATE),
    (item.finish_date.any fun f =>
        decide (0 ≤ f - today) && decide (f - today ≤ 14),
      some Indicator.FINISHING_SOON),
    ((item.start_date.any fun s =>
        decide (0 ≤ s - today) && decide (s - today ≤ 14)) &&
        decide (item.percent_complete = 0),
      some Indicator.STARTING_SOON),
    (decide (0 < item.percent_complete) && decide (item.percent_complete < 100),
      some Indicator.IN_PROGRESS),
    ((item.start_date.isSome && item.finish_date.isSome) &&
        decide (item.percent_complete = 0),
      some Indicator.NOT_STARTED) ]

/-- Scan an ordered rule list front to back and return the result of the
first rule whose condition holds; absence when none matches. -/
def first_match : List (Bool × Option Indicator) → Option Indicator
  | [] => none
  | (cond, res) :: rest => if cond then res else first_match rest

/-- The spec's algorithm as written: the result of the first matching
rule of the ordered list, absence otherwise (rule 11 of §4.1). -/
def first_matching_rule (item : Item) (today : Int) : Option Indicator :=
  first_match (spec_rule_list item today)

/-! ### Helper lemmas -/

/-- The exact-arithmetic trending comparison, rephrased over the
integers (for a positive total duration). -/
lemma trending_rat_iff_int (pc e t : Int) (ht : 0 < t) :
    ((pc : ℚ) < (e : ℚ) / (t : ℚ) * 100 - 5) ↔ (pc + 5) * t < e * 100 := by
  rw [div_mul_eq_mul_div, lt_sub_iff_add_lt, lt_div_iff₀ (by exact_mod_cast ht)]
  norm_cast

/-- The source's `_is_trending_late` agrees with the spec's wording of
the TrendingLate sub-rule everywhere. -/
lemma _is_trending_late_eq_spec (item : Item) (today : Int) :
    _is_trending_late item today = spec_trending_late item today := by
  unfold _is_trending_late spec_trending_late
  cases hs : item.start_date with
  | none => cases item.finish_date <;> rfl
  | some s =>
    cases hf : item.finish_date with
    | none => rfl
    | some f =>
      have hmax : (if today - s < 0 then 0 else today - s) = max 0 (today - s) := by
        rw [Int.max_def]; split_ifs <;> omega
      by_cases h1 : s > today
      · simp [h1, show ¬s ≤ today by omega]
      · have hs' : s ≤ today := by omega
        by_cases h2 : item.percent_complete ≥ 100
        · simp [h1, h2, show ¬item.percent_complete < 100 by omega]
        · by_cases h3 : f - s ≤ 0
          · simp [h1, h2, h3, hs', show ¬(0 : Int) < f - s by omega]
          · simp [h1, h2, h3, hs', hmax,
              show item.percent_complete < 100 by omega,
              show (0 : Int) < f - s by omega]

/-- C1: `calculate_indicator` returns the result of the first matching
rule in the fixed order Draft, Completed/CompletedRecently,
BeyondDeadline, LateFinish, LateStart, TrendingLate, FinishingSoon,
StartingSoon, InProgress, NotStarted, and absence otherwise; in
particular a past deadline with a past finish date yields
BeyondDeadline, a past finish date at 0 % yields LateFinish, and
coinciding start/finish dates within 14 days at 0 % yield
FinishingSoon. -/
theorem c1_rule_precedence (item : Item) (today : Int) :
    calculate_indicator item today = first_matching_rule item today ∧
    (∀ dl f, item.draft = false → item.percent_complete < 100 →
      item.deadline = some dl → dl < today → item.finish_date = some f →
      f < today →
      calculate_indicator item today = some Indicator.BEYOND_DEADLINE) ∧
    (∀ f, item.draft = false → item.deadline = none →
      item.percent_complete = 0 → item.finish_date = some f → f < today →
      calculate_indicator item today = some Indicator.LATE_FINISH) ∧
    (∀ d, item.draft = false → item.deadline = none →
      item.percent_complete = 0 → item.start_date = some d →
      item.finish_date = some d → 0 ≤ d - today → d - today ≤ 14 →
      calculate_indicator item today = some Indicator.FINISHING_SOON) := by
  refine ⟨?_, ?_, ?_, ?_⟩
  · unfold calculate_indicator first_matching_rule spec_rule_list first_match
    rw [_is_trending_late_eq_spec item today]
    rfl
  · intro dl f hdraft hpc hdl hlt hf hflt
    simp [calculate_indicator, hdraft, hdl, hlt,
      show ¬item.percent_complete ≥ 100 by omega]
  · intro f hdraft hdl hpc0 hf hflt
    simp [calculate_indicator, hdraft, hdl, hf, hflt, hpc0]
  · intro d hdraft hdl hpc0 hs hf h0 h14
    simp [calculate_indicator, _is_trending_late, SOON_THRESHOLD_DAYS,
      hdraft, hdl, hs, hf, hpc0,
      show ¬d < today by omega, show d - d ≤ 0 by omega,
      show today ≤ d by omega, show d ≤ 14 + today by omega]

theorem c1_witness :
    calculate_indicator ⟨some (-10), some (-1), some (-1), false, 50, none, none⟩ 0 =
        some Indicator.BEYOND_DEADLINE ∧
    calculate_indicator ⟨some (-10), some (-1), none, false, 0, none, none⟩ 0 =
        some Indicator.LATE_FINISH ∧
    calculate_indicator ⟨some 5, some 5, none, false, 0, none, none⟩ 0 =
        some Indicator.FINISHING_SOON :=
  ⟨(c1_rule_precedence _ 0).2.1 (-1) (-1) rfl (by decide) rfl (by decide) rfl (by decide),
   (c1_rule_precedence _ 0).2.2.1 (-1) rfl rfl rfl rfl (by decide),
   (c1_rule_precedence _ 0).2.2.2 5 rfl rfl rfl rfl rfl (by decide) (by decide)⟩

set_option maxHeartbeats 1000000 in
/-- When the trending-late sub-rule does not hold, no other rule of the
chain can produce TrendingLate. -/
lemma calculate_indicator_ne_trending (item : Item) (today : Int)
    (h : _is_trending_late item today = false) :
    calculate_indicator item today ≠ some Indicator.TRENDING_LATE := by
  unfold calculate_indicator
  rw [h]
  rcases hu : item.updated_at with _ | ts <;> simp only [hu] <;> split_ifs <;>
    first
    | contradiction
    | simp

/-- C2: for items reaching rule 6 with both dates, a started item and
incomplete progress, TrendingLate holds iff the total duration is
strictly positive and the completion percentage is more than five
points behind the expected linear progress. -/
theorem c2_trending_late_characterization (item : Item) (today s f : Int)
    (hdraft : item.draft = false)
    (hs : item.start_date = some s)
    (hf : item.finish_date = some f)
    (hbegun : s ≤ today)
    (hpc : item.percent_complete < 100)
    (hdl : ∀ d, item.deadline = some d → ¬d < today)
    (hlf : ¬f < today)
    (hls : ¬(s < today ∧ item.percent_complete = 0)) :
    calculate_indicator item today = some Indicator.TRENDING_LATE ↔
      0 < f - s ∧
        (item.percent_complete : ℚ) <
          ((max 0 (today - s) : Int) : ℚ) / ((f - s : Int) : ℚ) * 100 - 5 := by
  have hkey : _is_trending_late item today = true ↔
      (0 < f - s ∧
        (item.percent_complete : ℚ) <
          ((max 0 (today - s) : Int) : ℚ) / ((f - s : Int) : ℚ) * 100 - 5) := by
    rw [_is_trending_late_eq_spec]
    unfold spec_trending_late
    rw [hs, hf]
    simp [hbegun, hpc]
  have hdl' : (item.deadline.any fun d => decide (d < today)) = false := by
    cases hd : item.deadline with
    | none => rfl
    | some d => simp [hdl d hd]
  have h5 : ((item.start_date.any fun s' => decide (s' < today)) &&
      decide (item.percent_complete = 0)) = false := by
    rw [hs]
    simp only [Option.any_some, Bool.and_eq_false_iff, decide_eq_false_iff_not]
    by_cases hlt : s < today
    · exact Or.inr fun h0 => hls ⟨hlt, h0⟩
    · exact Or.inl hlt
  by_cases htl : _is_trending_late item today = true
  · have hcalc : calculate_indicator item today = some Indicator.TRENDING_LATE := by
      simp [calculate_indicator, hdraft, hdl', h5, htl, hf, hlf,
        show ¬item.percent_complete ≥ 100 by omega]
    exact iff_of_true hcalc (hkey.mp htl)
  · exact iff_of_false
      (calculate_indicator_ne_trending item today (eq_false_of_ne_true htl))
      (fun h => htl (hkey.mpr h))

theorem c2_witness :
    calculate_indicator ⟨some (-5), some 5, none, false, 20, none, none⟩ 0 =
        some Indicator.TRENDING_LATE ↔
      (0 : Int) < 5 - (-5) ∧
        (((⟨some (-5), some 5, none, false, 20, none, none⟩ : Item).percent_complete : ℚ) <
          ((max 0 (0 - (-5)) : Int) : ℚ) / (((5 : Int) - (-5) : Int) : ℚ) * 100 - 5) :=
  c2_trending_late_characterization _ 0 (-5) 5 rfl rfl rfl (by decide) (by decide)
    (fun d h => by simp at h) (by decide) (by decide)

/-- C3: a non-draft item at 100 % or more completion is
CompletedRecently exactly when `updated_at` is present and its date is
at most 14 days before the reference date (boundary inclusive), and
Completed otherwise, including when `updated_at` is absent. -/
theorem c3_completed_recency (item : Item) (today : Int)
    (hdraft : item.draft = false) (hpc : item.percent_complete ≥ 100) :
    (∀ ts, item.updated_at = some ts → today - ts.date ≤ 14 →
      calculate_indicator item today = some Indicator.COMPLETED_RECENTLY) ∧
    (∀ ts, item.updated_at = some ts → 14 < today - ts.date →
      calculate_indicator item today = some Indicator.COMPLETED) ∧
    (item.updated_at = none →
      calculate_indicator item today = some Indicator.COMPLETED) := by
  refine ⟨?_, ?_, ?_⟩
  · intro ts hts h14
    simp [calculate_indicator, COMPLETED_RECENTLY_DAYS, hdraft, hpc, hts,
      show today ≤ 14 + ts.date by omega]
  · intro ts hts h14
    simp [calculate_indicator, COMPLETED_RECENTLY_DAYS, hdraft, hpc, hts,
      show ¬today ≤ 14 + ts.date by omega]
  · intro hts
    simp [calculate_indicator, hdraft, hpc, hts]

theorem c3_witness :
    calculate_indicator ⟨none, none, none, false, 100, none, some ⟨-14, 0⟩⟩ 0 =
        some Indicator.COMPLETED_RECENTLY ∧
    calculate_indicator ⟨none, none, none, false, 100, none, some ⟨-15, 0⟩⟩ 0 =
        some Indicator.COMPLETED ∧
    calculate_indicator ⟨none, none, none, false, 100, none, none⟩ 0 =
        some Indicator.COMPLETED :=
  ⟨(c3_completed_recency _ 0 rfl (by decide)).1 ⟨-14, 0⟩ rfl (by decide),
   (c3_completed_recency _ 0 rfl (by decide)).2.1 ⟨-15, 0⟩ rfl (by decide),
   (c3_completed_recency _ 0 rfl (by decide)).2.2 rfl⟩

/-- C10: a future-dated `updated_at` (date component strictly after the
reference date) on a completed non-draft item yields CompletedRecently;
the recency check has no lower bound on the day difference. -/
theorem c10_future_timestamp_recent (item : Item) (today : Int)
    (ts : PyDateTime) (hdraft : item.draft = false)
    (hpc : item.percent_complete ≥ 100) (hts : item.updated_at = some ts)
    (hfuture : today < ts.date) :
    calculate_indicator item today = some Indicator.COMPLETED_RECENTLY := by
  simp [calculate_indicator, COMPLETED_RECENTLY_DAYS, hdraft, hpc, hts,
    show today ≤ 14 + ts.date by omega]

theorem c10_witness :
    calculate_indicator ⟨none, none, none, false, 100, none, some ⟨3, 0⟩⟩ 0 =
        some Indicator.COMPLETED_RECENTLY :=
  c10_future_timestamp_recent _ 0 ⟨3, 0⟩ rfl (by decide) rfl (by decide)

/-- C5: `calculate_indicators_batch` is a pure per-item map: it returns
one (item, indicator) pair per input item, in input order, each
indicator equal to `calculate_indicator` applied to that item. -/
theorem c5_batch_pointwise (items : List Item) (today : Int) :
    (calculate_indicators_batch items today).length = items.length ∧
    ∀ i : Nat, (calculate_indicators_batch items today)[i]? =
      (items[i]?).map fun item => (item, calculate_indicator item today) := by
  constructor
  · simp [calculate_indicators_batch]
  · intro i
    simp [calculate_indicators_batch]

/-- C6 (amended): `calculate_indicators_batch` performs no filtering at
all: its output is the full per-item map, whose first components are
exactly the input list. -/
theorem c6_batch_no_filtering (items : List Item) (today : Int) :
    calculate_indicators_batch items today =
      (items.map fun item => (item, calculate_indicator item today)) ∧
    (calculate_indicators_batch items today).map Prod.fst = items := by
  refine ⟨rfl, ?_⟩
  simp [calculate_indicators_batch]
  exact List.map_id items

theorem c6_counterexample :
    (⟨none, none, none, false, 50, some Indicator.IN_PROGRESS, none⟩ : Item).indicator =
      calculate_indicator
        ⟨none, none, none, false, 50, some Indicator.IN_PROGRESS, none⟩ 0 ∧
    calculate_indicators_batch
        [⟨none, none, none, false, 50, some Indicator.IN_PROGRESS, none⟩] 0 =
      [(⟨none, none, none, false, 50, some Indicator.IN_PROGRESS, none⟩,
        some Indicator.IN_PROGRESS)] := by
  decide

/-- C7: `get_indicator_severity` maps absence to 0 and the ten
indicators to 1 through 10 in the fixed severity order, which is
strictly increasing along the order of spec §3. -/
theorem c7_severity_order :
    get_indicator_severity none = 0 ∧
    get_indicator_severity (some Indicator.COMPLETED) = 1 ∧
    get_indicator_severity (some Indicator.COMPLETED_RECENTLY) = 2 ∧
    get_indicator_severity (some Indicator.NOT_STARTED) = 3 ∧
    get_indicator_severity (some Indicator.STARTING_SOON) = 4 ∧
    get_indicator_severity (some Indicator.IN_PROGRESS) = 5 ∧
    get_indicator_severity (some Indicator.FINISHING_SOON) = 6 ∧
    get_indicator_severity (some Indicator.TRENDING_LATE) = 7 ∧
    get_indicator_severity (some Indicator.LATE_START) = 8 ∧
    get_indicator_severity (some Indicator.LATE_FINISH) = 9 ∧
    get_indicator_severity (some Indicator.BEYOND_DEADLINE) = 10 ∧
    List.Pairwise (fun a b => get_indicator_severity a < get_indicator_severity b)
      [none, some Indicator.COMPLETED, some Indicator.COMPLETED_RECENTLY,
       some Indicator.NOT_STARTED, some Indicator.STARTING_SOON,
       some Indicator.IN_PROGRESS, some Indicator.FINISHING_SOON,
       some Indicator.TRENDING_LATE, some Indicator.LATE_START,
       some Indicator.LATE_FINISH, some Indicator.BEYOND_DEADLINE] := by
  refine ⟨rfl, rfl, rfl, rfl, rfl, rfl, rfl, rfl, rfl, rfl, rfl, ?_⟩
  decide

/-- The guarded-division trending check never fails: the
`total_days <= 0` guard makes the division safe. -/
lemma _is_trending_late_checked_eq (item : Item) (today : Int) :
    _is_trending_late_checked item today = some (_is_trending_late item today) := by
  unfold _is_trending_late_checked _is_trending_late rat_div_checked
  cases item.start_date with
  | none => cases item.finish_date <;> rfl
  | some s =>
    cases item.finish_date with
    | none => rfl
    | some f =>
      by_cases h1 : s > today
      · simp [h1]
      · by_cases h2 : item.percent_complete ≥ 100
        · simp [h1, h2]
        · by_cases h3 : f - s ≤ 0
          · simp [h1, h2, h3]
          · have hz : ((f : ℚ) - (s : ℚ)) ≠ 0 := by
              have h0 : ((f - s : Int) : ℚ) ≠ 0 :=
                Int.cast_ne_zero.mpr (by omega : (f - s : Int) ≠ 0)
              push_cast at h0
              exact h0
            simp [h1, h2, h3, hz]

set_option maxHeartbeats 1000000 in
/-- C4: the engine is total — the checked embedding (where the Python
division can fail) always succeeds with the same result, and a negative
completion percentage with no dates at all resolves to absence. -/
theorem c4_totality (item : Item) (today : Int) :
    calculate_indicator_checked item today = some (calculate_indicator item today) ∧
    (item.percent_complete < 0 → item.start_date = none →
      item.finish_date = none → item.deadline = none →
      calculate_indicator item today = none) := by
  constructor
  · unfold calculate_indicator_checked calculate_indicator
    rw [_is_trending_late_checked_eq]
    cases hu : item.updated_at <;> simp only [hu] <;>
      cases h : _is_trending_late item today <;> simp only [h] <;>
        split_ifs <;> first | contradiction | rfl
  · intro hneg hsd hfd hdl
    cases hd : item.draft
    · simp [calculate_indicator, _is_trending_late, Item.has_dates,
        hd, hsd, hfd, hdl,
        show ¬item.percent_complete ≥ 100 by omega,
        show ¬0 < item.percent_complete by omega,
        show item.percent_complete ≠ 0 by omega]
    · simp [calculate_indicator, hd]

theorem c4_witness :
    calculate_indicator_checked ⟨none, none, none, false, -10, none, none⟩ 0 =
        some (calculate_indicator ⟨none, none, none, false, -10, none, none⟩ 0) ∧
    calculate_indicator ⟨none, none, none, false, -10, none, none⟩ 0 = none :=
  ⟨(c4_totality _ 0).1, (c4_totality _ 0).2 (by decide) rfl rfl rfl⟩

/-- C8: at 0 % with only a start date (no finish date, no deadline) more
than 14 days out, every rule falls through — the NotStarted rule needs
both dates — so the result is absence, not NotStarted. -/
theorem c8_lone_start_date_absence (item : Item) (today s : Int)
    (hdraft : item.draft = false) (hpc : item.percent_complete = 0)
    (hs : item.start_date = some s) (hfar : today + 14 < s)
    (hf : item.finish_date = none) (hdl : item.deadline = none) :
    calculate_indicator item today = none := by
  simp [calculate_indicator, _is_trending_late, Item.has_dates,
    SOON_THRESHOLD_DAYS, hdraft, hpc, hs, hf, hdl,
    show ¬s < today by omega, show ¬s ≤ 14 + today by omega]

theorem c8_witness :
    calculate_indicator ⟨some 20, none, none, false, 0, none, none⟩ 0 = none :=
  c8_lone_start_date_absence _ 0 20 rfl rfl rfl (by decide) rfl rfl

/-- C9: a partially complete item (0 < percent < 100) with no deadline
and both dates more than 14 days in the future is InProgress: neither
the trending-late rule (needs a started item) nor the starting-soon
rule (needs 0 %) intercepts it. -/
theorem c9_partial_future_inprogress (item : Item) (today s f : Int)
    (hdraft : item.draft = false) (hpos : 0 < item.percent_complete)
    (hlt : item.percent_complete < 100) (hdl : item.deadline = none)
    (hs : item.start_date = some s) (hf : item.finish_date = some f)
    (hsfar : today + 14 < s) (hffar : today + 14 < f) :
    calculate_indicator item today = some Indicator.IN_PROGRESS := by
  simp [calculate_indicator, _is_trending_late, SOON_THRESHOLD_DAYS,
    hdraft, hdl, hs, hf, hpos, hlt,
    show ¬item.percent_complete ≥ 100 by omega,
    show ¬f < today by omega, show ¬s < today by omega,
    show s > today by omega,
    show item.percent_complete ≠ 0 by omega,
    show ¬f ≤ 14 + today by omega]

theorem c9_witness :
    calculate_indicator ⟨some 20, some 30, none, false, 50, none, none⟩ 0 =
        some Indicator.IN_PROGRESS :=
  c9_partial_future_inprogress _ 0 20 30 rfl (by decide) (by decide) rfl rfl rfl
    (by decide) (by decide)
